import Mathlib

/-!
Shallow embedding of `src/networks.py` (CycleGAN network components in
JAX/flax) and verification of its specification claims.

Shapes of image tensors are modelled as `HWC` triples (height, width,
channels); the batch dimension is irrelevant to every claim and omitted.
The spatial-size arithmetic of `flax.linen.Conv` / `flax.linen.ConvTranspose`
is embedded exactly:

* `nn.Conv` with kernel `k`, stride `s`, explicit padding `(lo, hi)` maps a
  spatial dimension `h` to `(h + lo + hi - k) / s + 1` (floor division) —
  `lax.conv_general_dilated` output-shape arithmetic.
* `nn.ConvTranspose` with explicit padding pairs calls `lax.conv_transpose`,
  which dilates the input by the stride (size `(h - 1) * s + 1`), pads by
  `(lo, hi)` and then applies a window-stride-1 convolution, giving
  `(h - 1) * s + 1 + lo + hi + 1 - k`.

`GroupNorm`, `relu`, `tanh`, `PReLU` and `Dropout` preserve shape and are
identities at the shape level.

Loss tensors are modelled as flat value lists together with a shape tag,
over an arbitrary linear ordered field (instantiated at `ℚ` for executable
claims and at `ℝ` with `Real.exp` / `Real.log` for the analytic claim).
-/

namespace CycleGAN

/-- A (height, width, channels) tensor shape. -/
structure HWC where
  h : Nat
  w : Nat
  c : Nat
deriving DecidableEq, Repr

/-- Output spatial size of `nn.Conv` with kernel `k`, stride `s`, padding
`(lo, hi)` applied to a dimension of size `h`. -/
def convDim (k s lo hi h : Nat) : Nat := (h + lo + hi - k) / s + 1

/-- Output spatial size of `nn.ConvTranspose` (`lax.conv_transpose` with
explicit padding pairs): input dilated by the stride, then a VALID
window-stride-1 convolution over the padded result. -/
def convTransposeDim (k s lo hi h : Nat) : Nat := (h - 1) * s + 1 + lo + hi + 1 - k

/-- Shape action of `nn.Conv(features, kernel_size=[k,k], strides=s, padding=[(lo,hi),(lo,hi)])`. -/
def convShape (features k s lo hi : Nat) (x : HWC) : HWC :=
  ⟨convDim k s lo hi x.h, convDim k s lo hi x.w, features⟩

/-- Shape action of `nn.ConvTranspose(features, kernel_size=[k,k], strides=s, padding=[(lo,hi),(lo,hi)])`. -/
def convTransposeShape (features k s lo hi : Nat) (x : HWC) : HWC :=
  ⟨convTransposeDim k s lo hi x.h, convTransposeDim k s lo hi x.w, features⟩

/-- `jax.numpy` broadcasting of a single dimension pair. -/
def broadcastDim (a b : Nat) : Option Nat :=
  if a = b then some a else if a = 1 then some b else if b = 1 then some a else none

/-- `jax.numpy` broadcasting of two (rank-aligned) shapes, as used by the
elementwise addition `input + self.model(input)`; `none` models the
broadcasting `TypeError` raised on incompatible shapes. -/
def broadcastHWC (x y : HWC) : Option HWC := do
  let h ← broadcastDim x.h y.h
  let w ← broadcastDim x.w y.w
  let c ← broadcastDim x.c y.c
  pure ⟨h, w, c⟩

/-- Shape action of the two-stage pipeline that `ResnetBlock.setup`
(lines 75-87) attempts to build: Conv(features, 3x3, padding 1) →
GroupNorm → relu → [Dropout(0.5)] → Conv(features, 3x3, padding 1) →
GroupNorm.  Norms, activations and dropout are shape identities, so only
the two convolutions act.  This is the intended pipeline only: the actual
`setup` never finishes building it, because line 81 reads the undeclared
attribute `self.use_dropout` — that error path is modelled by
`resnetBlockSetup` / `resnetBlockCall` below. -/
def resnetBlockModelShape (features : Nat) (x : HWC) : HWC :=
  convShape features 3 1 1 1 (convShape features 3 1 1 1 x)

/-- Shape action the residual call `input + self.model(input)` (line 90)
would have if `setup` completed: broadcast-add of the input and the
intended pipeline output. -/
def resnetBlockCallShape (features : Nat) (x : HWC) : Option HWC :=
  broadcastHWC x (resnetBlockModelShape features x)

/-- The dataclass fields `ResnetBlock` declares (line 73): only
`features`.  `use_dropout` is not among them. -/
def resnetBlockDeclaredFields : List String := ["features"]

/-- `ResnetBlock.setup` (lines 75-87) with flax attribute semantics:
line 81 evaluates `if self.use_dropout:`, and reading an attribute that
the module does not declare raises `AttributeError`, so `setup` raises on
every invocation instead of building the model. -/
def resnetBlockSetup (features : Nat) : Except String (HWC → HWC) :=
  if "use_dropout" ∈ resnetBlockDeclaredFields then
    Except.ok (resnetBlockModelShape features)
  else
    Except.error "AttributeError: ResnetBlock has no attribute use_dropout"

/-- `ResnetBlock.__call__` (lines 89-90): flax runs `setup` lazily before
the call body, so the `AttributeError` of `resnetBlockSetup` propagates
and the residual addition `input + self.model(input)` is never reached. -/
def resnetBlockCall (features : Nat) (x : HWC) : Except String (Option HWC) :=
  (resnetBlockSetup features).map (fun model => broadcastHWC x (model x))

/-- Shape action of the chain of `n` residual blocks at the generator
bottleneck. -/
def resBlocksShape (features : Nat) : Nat → HWC → Option HWC
  | 0, x => some x
  | n + 1, x => (resnetBlockCallShape features x).bind (resBlocksShape features n)

/-- Shape action of the sequential pipeline built in `Generator.setup`
(lines 27-61): Conv(ngf, 7x7, padding 3) → two downsampling
Conv(ngf * mult * 2, 3x3, stride 2, padding 1) stages (mult = 2^i) →
`n_res_blocks` residual blocks at width ngf * 4 → two upsampling
ConvTranspose((ngf * mult) / 2, 3x3, stride 2, padding 1) stages
(mult = 2^(2-i)) → Conv(output_nc, 7x7, padding 0) → tanh. -/
def generatorModelShape (output_nc ngf n_res_blocks : Nat) (x : HWC) : Option HWC :=
  let s1 := convShape ngf 7 1 3 3 x
  let s2 := convShape (ngf * 1 * 2) 3 2 1 1 s1
  let s3 := convShape (ngf * 2 * 2) 3 2 1 1 s2
  (resBlocksShape (ngf * 4) n_res_blocks s3).map (fun t =>
    let u1 := convTransposeShape (ngf * 4 / 2) 3 2 1 1 t
    let u2 := convTransposeShape (ngf * 2 / 2) 3 2 1 1 u1
    convShape output_nc 7 1 0 0 u2)

/-- Shape action of `Generator.__call__` (line 68):
`input + self.model(input)`, the skip connection. -/
def generatorCallShape (output_nc ngf n_res_blocks : Nat) (x : HWC) : Option HWC :=
  (generatorModelShape output_nc ngf n_res_blocks x).bind (fun y => broadcastHWC x y)

/-- Python truthiness of a string: nonempty strings are truthy. -/
def pyTruthyString (s : String) : Bool := s != ""

/-- Which of the three architecture branches of `Discriminator.setup` runs. -/
inductive DiscBranch
  | nLayers
  | pixel
  | unrecognized
deriving DecidableEq, Repr

/-- Branch selection of `Discriminator.setup` (lines 123-155).  The source
condition is `if self.netD == "n_layers" or "basic":`, which by Python
operator precedence is `(self.netD == "n_layers") or "basic"` — truthy for
every `netD` because the literal `"basic"` is a nonempty string.  The
`else` branch merely evaluates `NotImplementedError(...)` without `raise`,
so every branch returns normally (`Except.ok`); no error is ever signalled. -/
def discSetup (netD : String) : Except String DiscBranch :=
  if (netD == "n_layers") || pyTruthyString "basic" then Except.ok DiscBranch.nLayers
  else if netD == "pixel" then Except.ok DiscBranch.pixel
  else Except.ok DiscBranch.unrecognized

/-- Shape action of the `"pixel"` pipeline as written (lines 146-151):
three 1x1 stride-1 padding-0 convolutions (features ndf, ndf * 2, 1) with
shape-preserving activations/normalization between them. -/
def pixelModelShape (ndf : Nat) (x : HWC) : HWC :=
  convShape 1 1 1 0 0 (convShape (ndf * 2) 1 1 0 0 (convShape ndf 1 1 0 0 x))

/-- `jnp.min(a, axis)` applied to a Python scalar `a` (a rank-0 array):
numpy axis validation accepts an integer axis iff `-ndim ≤ axis < ndim`,
and `ndim = 0` for a scalar, so every concrete axis is out of bounds. -/
def jnpMinScalarWithAxis (a : Int) (axis : Int) : Except String Int :=
  let ndim : Int := 0
  if -ndim ≤ axis ∧ axis < ndim then Except.ok a
  else Except.error "axis out of bounds for array of dimension 0"

/-- The filter-count multiplier computed at line 131 / 137 of
`Discriminator.setup`: `nf_mult = jnp.min(2**n, 8)` — `8` is passed
positionally as the `axis` argument of `jnp.min`. -/
def nfMultCode (n : Nat) : Except String Int := jnpMinScalarWithAxis (2 ^ n) 8

/-- A value-level tensor: a shape tag plus flat data. -/
structure Tensor (K : Type) where
  shape : List Nat
  data : List K
deriving DecidableEq

/-- The `GanLoss` module configuration (fields set in `__init__`,
lines 168-180; the source defaults are `target_real_label=1.0`,
`target_fake_label=0.0`). -/
structure GanLoss (K : Type) where
  gan_mode : String
  target_real_label : K
  target_fake_label : K

/-- The errors the `GanLoss` code can raise: the `NotImplementedError` of
`setup`, the `ValueError` of the shape check in the `vanila` branch, and
the `UnboundLocalError` Python would raise at `return loss_value` if no
branch assigned it. -/
inductive GanErr
  | notImplemented (mode : String)
  | valueError
  | unboundLocal
deriving DecidableEq, Repr

/-- The recognized mode list of `GanLoss.setup` (line 183). -/
def ganModes : List String := ["lsgan", "vanila", "wgangp"]

/-- `GanLoss.setup` (lines 182-184): validate the mode, raising
`NotImplementedError` for an unrecognized one. -/
def GanLoss.setup {K : Type} (g : GanLoss K) : Except GanErr Unit :=
  if g.gan_mode ∈ ganModes then Except.ok ()
  else Except.error (GanErr.notImplemented g.gan_mode)

/-- `jnp.ones_like(a=prediction)` (line 200). -/
def onesLike {K : Type} [One K] (t : Tensor K) : Tensor K :=
  ⟨t.shape, t.data.map (fun _ => 1)⟩

/-- Scalar-tensor product `target_label * target` (line 201). -/
def tensorScale {K : Type} [Mul K] (c : K) (t : Tensor K) : Tensor K :=
  ⟨t.shape, t.data.map (fun x => c * x)⟩

/-- `GanLoss.get_target_tensor` (lines 186-201): the label constant chosen
by the flag, times a ones tensor shaped like the prediction. -/
def GanLoss.get_target_tensor {K : Type} [One K] [Mul K] (g : GanLoss K)
    (prediction : Tensor K) (target_is_real : Bool) : Tensor K :=
  let target_label := if target_is_real then g.target_real_label else g.target_fake_label
  tensorScale target_label (onesLike prediction)

/-- `jnp.mean` of a tensor: sum of the data divided by its length. -/
def tmean {K : Type} [DivisionRing K] (t : Tensor K) : K :=
  t.data.sum / (t.data.length : K)

/-- Elementwise tensor subtraction (`prediction - target_array`, line 206). -/
def tensorSub {K : Type} [Sub K] (a b : Tensor K) : Tensor K :=
  ⟨a.shape, List.zipWith (fun x y => x - y) a.data b.data⟩

/-- Elementwise square (`** 2`, line 206). -/
def tensorSquare {K : Type} [Monoid K] (a : Tensor K) : Tensor K :=
  ⟨a.shape, a.data.map (fun x => x ^ 2)⟩

/-- The elementwise body of the `vanila` branch (lines 214-215):
`max_val = jnp.clip(-x, 0, None)`;
`x - x * z + max_val + log(exp(-max_val) + exp(-x - max_val))`,
parametrized by the exponential and logarithm maps. -/
def bceElem {K : Type} [LinearOrderedField K] (kexp klog : K → K) (x z : K) : K :=
  let max_val := max (-x) 0
  x - x * z + max_val + klog (kexp (-max_val) + kexp (-x - max_val))

/-- Elementwise application of `bceElem` over prediction/target tensors. -/
def bceTensor {K : Type} [LinearOrderedField K] (kexp klog : K → K)
    (p t : Tensor K) : Tensor K :=
  ⟨p.shape, List.zipWith (bceElem kexp klog) p.data t.data⟩

/-- `GanLoss.__call__` (lines 203-221), with the Python control flow kept
exactly: a first `if` for `lsgan` assigns `loss_value`; a second
`if`/`elif` chain for `vanila` (with its shape-check `ValueError`) and
`wgangp` (a true `if`/`else` on `target_is_real`) reassigns it; finally
`return loss_value` raises `UnboundLocalError` if no branch assigned. -/
def ganCall {K : Type} [LinearOrderedField K] (kexp klog : K → K) (g : GanLoss K)
    (prediction : Tensor K) (target_is_real : Bool) : Except GanErr K :=
  let target_array := g.get_target_tensor prediction target_is_real
  let loss1 : Option K :=
    if g.gan_mode ∈ ["lsgan"] then
      some (tmean (tensorSquare (tensorSub prediction target_array)))
    else none
  if g.gan_mode ∈ ["vanila"] then
    if target_array.shape ≠ prediction.shape then Except.error GanErr.valueError
    else Except.ok (tmean (bceTensor kexp klog prediction target_array))
  else if g.gan_mode ∈ ["wgangp"] then
    Except.ok (if target_is_real then -(tmean prediction) else tmean prediction)
  else
    match loss1 with
    | some v => Except.ok v
    | none => Except.error GanErr.unboundLocal

/-- The mean-squared-error of the specification: the mean over elements of
the squared differences. -/
def mseSpec {K : Type} [LinearOrderedField K] (p t : Tensor K) : K :=
  (List.zipWith (fun a b => (a - b) ^ 2) p.data t.data).sum / (p.data.length : K)

/-- The standard numerically-stable binary cross-entropy with logits of the
specification: `max(x, 0) - x * z + log(1 + exp(-|x|))`. -/
noncomputable def bceSpecElem (x z : ℝ) : ℝ :=
  max x 0 - x * z + Real.log (1 + Real.exp (-|x|))

/-- Mean over elements of `bceSpecElem`. -/
noncomputable def bceSpecMean (p t : Tensor ℝ) : ℝ :=
  (List.zipWith bceSpecElem p.data t.data).sum / (p.data.length : ℝ)

/-! Helper lemmas -/

theorem zipWith_ext {α β γ : Type} (f g : α → β → γ) (l1 : List α) (l2 : List β)
    (h : ∀ a b, f a b = g a b) : List.zipWith f l1 l2 = List.zipWith g l1 l2 := by
  induction l1 generalizing l2 with
  | nil => simp
  | cons a t ih => cases l2 <;> simp [h, ih]

theorem map_zipWith_comp {α β γ δ : Type} (g : γ → δ) (f : α → β → γ)
    (l1 : List α) (l2 : List β) :
    (List.zipWith f l1 l2).map g = List.zipWith (fun a b => g (f a b)) l1 l2 := by
  induction l1 generalizing l2 with
  | nil => simp
  | cons a t ih => cases l2 <;> simp [ih]

theorem zipWith_self_sq_sum_zero {K : Type} [LinearOrderedField K] (l : List K) :
    (List.zipWith (fun a b => (a - b) ^ 2) l l).sum = 0 := by
  induction l with
  | nil => simp
  | cons a t ih => simp [ih]

theorem get_target_tensor_shape {K : Type} [One K] [Mul K] (g : GanLoss K)
    (p : Tensor K) (b : Bool) : (g.get_target_tensor p b).shape = p.shape := rfl

theorem get_target_tensor_length {K : Type} [One K] [Mul K] (g : GanLoss K)
    (p : Tensor K) (b : Bool) : (g.get_target_tensor p b).data.length = p.data.length := by
  simp [GanLoss.get_target_tensor, tensorScale, onesLike]

theorem ganCall_lsgan_eq {K : Type} [LinearOrderedField K] (kexp klog : K → K)
    (r f : K) (p : Tensor K) (b : Bool) :
    ganCall kexp klog ⟨"lsgan", r, f⟩ p b =
      Except.ok (tmean (tensorSquare (tensorSub p
        (GanLoss.get_target_tensor ⟨"lsgan", r, f⟩ p b)))) := rfl

theorem ganCall_vanila_eq {K : Type} [LinearOrderedField K] (kexp klog : K → K)
    (r f : K) (p : Tensor K) (b : Bool) :
    ganCall kexp klog ⟨"vanila", r, f⟩ p b =
      Except.ok (tmean (bceTensor kexp klog p
        (GanLoss.get_target_tensor ⟨"vanila", r, f⟩ p b))) := by
  have hsh : (GanLoss.get_target_tensor (⟨"vanila", r, f⟩ : GanLoss K) p b).shape = p.shape := rfl
  simp [ganCall, hsh]

theorem bceTensor_real_eq_spec (p t : Tensor ℝ) :
    bceTensor Real.exp Real.log p t = ⟨p.shape, List.zipWith bceSpecElem p.data t.data⟩ := by
  rw [bceTensor]
  congr 1
  refine zipWith_ext _ _ _ _ ?_
  intro x z
  simp only [bceElem, bceSpecElem]
  rcases le_total x 0 with hx | hx
  · have h1 : max (-x) 0 = -x := max_eq_left (by linarith)
    have h2 : max x 0 = 0 := max_eq_right hx
    have h3 : |x| = -x := abs_of_nonpos hx
    rw [h1, h2, h3, neg_neg]
    have h4 : -x - -x = 0 := by ring
    rw [h4, Real.exp_zero, add_comm (Real.exp x) 1]
    ring
  · have h1 : max (-x) 0 = 0 := max_eq_right (by linarith)
    have h2 : max x 0 = x := max_eq_left hx
    have h3 : |x| = x := abs_of_nonneg hx
    rw [h1, h2, h3, neg_zero, Real.exp_zero, sub_zero]
    ring

/-! Claim theorems -/

/-- C1: the claim states that for an input whose channel count matches
`output_nc`, `Generator.__call__` returns the input plus the pipeline
output with output shape equal to the input shape.  The code violates
this: with `output_nc = 3`, `ngf = 64`, `n_res_blocks = 6` and a
32×32×3 input, the layer pipeline produces a 23×23×3 tensor (the two
stride-2 downsampling convolutions, the two `(h-1)*2+1+2+1-3`
transposed convolutions and the final 7×7 convolution with padding 0
lose 9 pixels per spatial dimension), so the skip-connection addition
`input + self.model(input)` does not broadcast and no output of any
shape is produced. -/
theorem generator_skip_shape_bug :
    generatorModelShape 3 64 6 ⟨32, 32, 3⟩ = some ⟨23, 23, 3⟩ ∧
    generatorCallShape 3 64 6 ⟨32, 32, 3⟩ = none := by decide

/-- Intended-pipeline support lemma: had `setup` completed, the two-stage
convolution pipeline would preserve the shape of any input whose channel
count equals `features`, and the residual addition would succeed. -/
theorem resnetBlock_intended_shape (features h w : Nat) (hh : 1 ≤ h) (hw : 1 ≤ w) :
    resnetBlockModelShape features ⟨h, w, features⟩ = ⟨h, w, features⟩ ∧
    resnetBlockCallShape features ⟨h, w, features⟩ = some ⟨h, w, features⟩ := by
  have hd : ∀ d : Nat, 1 ≤ d → convDim 3 1 1 1 d = d := by
    intro d h1
    simp only [convDim, Nat.div_one]
    omega
  have hm : resnetBlockModelShape features ⟨h, w, features⟩ = ⟨h, w, features⟩ := by
    simp [resnetBlockModelShape, convShape, hd h hh, hd w hw]
  refine ⟨hm, ?_⟩
  rw [resnetBlockCallShape, hm]
  simp [broadcastHWC, broadcastDim]

/-- C2: the claim states that `ResnetBlock.__call__` returns the input
plus its two-stage pipeline output with the shape preserved.  The code
violates this: `ResnetBlock` declares only the `features` field, yet its
`setup` reads `self.use_dropout` (line 81), so flax raises
`AttributeError` on every call — for every configuration and input, the
call raises instead of returning a value.  The intended pipeline would
have satisfied the claim: at a 8×8×64 input with `features = 64` it
preserves the shape and the residual addition succeeds (second and third
conjuncts). -/
theorem resnetBlock_call_attribute_error :
    (∀ (features : Nat) (x : HWC), resnetBlockCall features x =
      Except.error "AttributeError: ResnetBlock has no attribute use_dropout") ∧
    resnetBlockModelShape 64 ⟨8, 8, 64⟩ = ⟨8, 8, 64⟩ ∧
    resnetBlockCallShape 64 ⟨8, 8, 64⟩ = some ⟨8, 8, 64⟩ :=
  ⟨fun _ _ => rfl, by decide, by decide⟩

/-- C7: the claim states that `Discriminator.setup` raises a
"not implemented" error for every architecture name outside
{"n_layers", "basic", "pixel"} and never silently builds a model for an
unrecognized name.  The code violates this: the branch condition
`self.netD == "n_layers" or "basic"` is truthy for every name, so every
name — including an unrecognized one such as "resnet18" — silently selects
the n_layers pipeline, and the error branch (whose `NotImplementedError`
is in any case constructed without `raise`) is unreachable. -/
theorem disc_dispatch_always_nlayers :
    (∀ netD : String, discSetup netD = Except.ok DiscBranch.nLayers) ∧
    discSetup "resnet18" = Except.ok DiscBranch.nLayers := by
  constructor
  · intro netD
    simp [discSetup, pyTruthyString]
  · rfl

/-- C8: the claim states that the filter-count multiplier is
`min(2^n, 8)`.  The code instead evaluates `jnp.min(2**n, 8)`, passing
`8` positionally as the `axis` argument of a reduction over a rank-0
array, which fails numpy axis validation (no integer axis is in bounds
for dimension 0) and raises instead of producing a value; the intended
multiplier at the first loop iteration `n = 1` would have been
`min(2, 8) = 2`. -/
theorem disc_nf_mult_axis_bug :
    (∀ n : Nat, nfMultCode n = Except.error "axis out of bounds for array of dimension 0") ∧
    min ((2 : Int) ^ 1) 8 = 2 := by
  constructor
  · intro n
    simp [nfMultCode, jnpMinScalarWithAxis]
  · decide

/-- C9: the claim states that a `Discriminator` with `netD = "pixel"`
builds the 1×1 stride-1 pipeline and preserves the spatial size.  The
code violates this: the always-truthy branch condition routes
`"pixel"` to the n_layers pipeline, whose very first convolution is
4×4 with stride 2 and padding 1 and halves a 32-pixel dimension to 16;
the 1×1 pipeline (which would indeed map 32×32×3 to a 32×32×1
prediction map) is unreachable. -/
theorem disc_pixel_branch_unreachable :
    discSetup "pixel" = Except.ok DiscBranch.nLayers ∧
    pixelModelShape 64 ⟨32, 32, 3⟩ = ⟨32, 32, 1⟩ ∧
    convDim 4 2 1 1 32 = 16 :=
  ⟨rfl, by decide, by decide⟩

/-- C3: in `lsgan` mode, `GanLoss.__call__` returns the mean squared error
between the prediction and the generated target tensor; when the
prediction equals that target tensor the returned loss is `0`. -/
theorem lsgan_loss_is_mse (kexp klog : ℚ → ℚ) (r f : ℚ) (p : Tensor ℚ) (b : Bool) :
    ganCall kexp klog ⟨"lsgan", r, f⟩ p b =
      Except.ok (mseSpec p (GanLoss.get_target_tensor ⟨"lsgan", r, f⟩ p b)) ∧
    (p.data = (GanLoss.get_target_tensor (⟨"lsgan", r, f⟩ : GanLoss ℚ) p b).data →
      ganCall kexp klog ⟨"lsgan", r, f⟩ p b = Except.ok 0) := by
  have hdata : (tensorSquare (tensorSub p
      (GanLoss.get_target_tensor (⟨"lsgan", r, f⟩ : GanLoss ℚ) p b))).data =
      List.zipWith (fun a c => (a - c) ^ 2) p.data
        (GanLoss.get_target_tensor (⟨"lsgan", r, f⟩ : GanLoss ℚ) p b).data := by
    simp [tensorSquare, tensorSub, map_zipWith_comp]
  constructor
  · rw [ganCall_lsgan_eq]
    congr 1
    simp only [tmean, mseSpec, hdata]
    rw [List.length_zipWith, get_target_tensor_length, Nat.min_self]
  · intro hd
    rw [ganCall_lsgan_eq]
    congr 1
    simp only [tmean, hdata]
    rw [← hd, zipWith_self_sq_sum_zero, zero_div]

theorem lsgan_loss_is_mse_witness :
    ganCall id id (⟨"lsgan", 1, 0⟩ : GanLoss ℚ) ⟨[2], [1, 1]⟩ true =
      Except.ok (mseSpec ⟨[2], [1, 1]⟩
        (GanLoss.get_target_tensor (⟨"lsgan", 1, 0⟩ : GanLoss ℚ) ⟨[2], [1, 1]⟩ true)) ∧
    ganCall id id (⟨"lsgan", 1, 0⟩ : GanLoss ℚ) ⟨[2], [1, 1]⟩ true = Except.ok 0 :=
  ⟨(lsgan_loss_is_mse id id 1 0 ⟨[2], [1, 1]⟩ true).1,
   (lsgan_loss_is_mse id id 1 0 ⟨[2], [1, 1]⟩ true).2
     (by simp [GanLoss.get_target_tensor, tensorScale, onesLike])⟩

/-- C4: in `wgangp` mode, `GanLoss.__call__` returns `-mean(P)` when
`target_is_real` is true and `+mean(P)` when it is false, the two cases
being the exclusive branches of a single boolean test. -/
theorem wgangp_loss_signed_mean (kexp klog : ℚ → ℚ) (r f : ℚ) (p : Tensor ℚ) :
    ganCall kexp klog ⟨"wgangp", r, f⟩ p true = Except.ok (-(tmean p)) ∧
    ganCall kexp klog ⟨"wgangp", r, f⟩ p false = Except.ok (tmean p) ∧
    ∀ b : Bool, ganCall kexp klog ⟨"wgangp", r, f⟩ p b =
      Except.ok (if b then -(tmean p) else tmean p) := by
  refine ⟨rfl, rfl, fun b => ?_⟩
  cases b <;> rfl

/-- C5: in the `vanila` (vanilla BCE-with-logits) mode, the loss returned
by `GanLoss.__call__` with the real exponential and logarithm equals the
mean over elements of the standard stable form
`max(x, 0) - x * z + log(1 + exp(-|x|))`: the source computes it through
the log-sum-exp stabilization with `max_val = max(-x, 0)`, and the two
expressions agree on all of `ℝ`. -/
theorem vanila_loss_logsumexp_identity (r f : ℝ) (p : Tensor ℝ) (b : Bool) :
    ganCall Real.exp Real.log ⟨"vanila", r, f⟩ p b =
      Except.ok (bceSpecMean p (GanLoss.get_target_tensor ⟨"vanila", r, f⟩ p b)) := by
  rw [ganCall_vanila_eq, bceTensor_real_eq_spec]
  congr 1
  simp only [tmean, bceSpecMean]
  rw [List.length_zipWith, get_target_tensor_length, Nat.min_self]

/-- C6: `GanLoss.setup` rejects every mode outside
{"lsgan", "vanila", "wgangp"} with a `NotImplementedError` and accepts
every recognized mode; `GanLoss.__call__` itself never produces the
not-implemented error — its only outcomes are a value, the (unreachable)
shape `ValueError`, or the `UnboundLocalError` of an unvalidated mode. -/
theorem ganloss_setup_validation (g : GanLoss ℚ) :
    (g.gan_mode ∉ ganModes →
      GanLoss.setup g = Except.error (GanErr.notImplemented g.gan_mode)) ∧
    (g.gan_mode ∈ ganModes → GanLoss.setup g = Except.ok ()) ∧
    ∀ (kexp klog : ℚ → ℚ) (p : Tensor ℚ) (b : Bool),
      (∃ v, ganCall kexp klog g p b = Except.ok v) ∨
      ganCall kexp klog g p b = Except.error GanErr.valueError ∨
      ganCall kexp klog g p b = Except.error GanErr.unboundLocal := by
  refine ⟨fun hn => ?_, fun hm => ?_, fun kexp klog p b => ?_⟩
  · simp [GanLoss.setup, hn]
  · simp [GanLoss.setup, hm]
  · simp only [ganCall]
    by_cases h1 : g.gan_mode ∈ ["vanila"]
    · rw [if_pos h1]
      by_cases h2 : (GanLoss.get_target_tensor g p b).shape ≠ p.shape
      · rw [if_pos h2]
        exact Or.inr (Or.inl rfl)
      · rw [if_neg h2]
        exact Or.inl ⟨_, rfl⟩
    · rw [if_neg h1]
      by_cases h3 : g.gan_mode ∈ ["wgangp"]
      · rw [if_pos h3]
        exact Or.inl ⟨_, rfl⟩
      · rw [if_neg h3]
        by_cases h4 : g.gan_mode ∈ ["lsgan"]
        · rw [if_pos h4]
          exact Or.inl ⟨_, rfl⟩
        · rw [if_neg h4]
          exact Or.inr (Or.inr rfl)

theorem ganloss_setup_validation_witness :
    GanLoss.setup (⟨"relativistic", 1, 0⟩ : GanLoss ℚ) =
      Except.error (GanErr.notImplemented "relativistic") ∧
    GanLoss.setup (⟨"lsgan", 1, 0⟩ : GanLoss ℚ) = Except.ok () :=
  ⟨(ganloss_setup_validation ⟨"relativistic", 1, 0⟩).1 (by decide),
   (ganloss_setup_validation ⟨"lsgan", 1, 0⟩).2.1 (by decide)⟩

/-- C10: `GanLoss.get_target_tensor` always returns a tensor whose shape
equals the prediction shape exactly, so the shape-mismatch `ValueError`
branch of the `vanila` call path is unreachable: the `vanila` call always
succeeds with a value. -/
theorem target_tensor_shape_matches (kexp klog : ℚ → ℚ) (g : GanLoss ℚ)
    (p : Tensor ℚ) (b : Bool) (r f : ℚ) :
    (g.get_target_tensor p b).shape = p.shape ∧
    ∃ v, ganCall kexp klog ⟨"vanila", r, f⟩ p b = Except.ok v :=
  ⟨rfl, ⟨_, ganCall_vanila_eq kexp klog r f p b⟩⟩

end CycleGAN
